import Mathlib

/-
Verification of the sandbox-and-session orchestration backend.

This file gives a shallow embedding, in Lean, of the parts of the code that
the specification claims talk about:

* server/tools/async_executor.py  — AsyncProcessExecutor: security gates
  (blocklist / confirmation / noisy patterns), binary-output detection,
  output formatting, log readback, URL auto-detection;
* server/tools/backend_tools.py   — FileCache and FSTools (write-through
  file cache with path normalization);
* server/sandbox/sandbox.py       — SandboxManager (one sandbox per user);
* server/api/services/agent_runner.py — stream_agent_events (projection of
  the raw LLM tool-event stream to the public event alphabet);
* server/api/routers/agent.py     — send_message and stream_events (pending
  slot, sandbox provisioning, event delivery, persistence, status reset).

Python dicts are modelled as association lists, machine integers as Nat/Int,
fallible calls as Except, and the asynchronous generators as pure functions
from the list of incoming events to the list of emitted events plus the
resulting store state.  Subprocess creation is modelled by a `spawned`
outcome: the theorems about the security gate state which commands reach it.
-/

set_option autoImplicit false

namespace Fegg

/-! ## Python string primitives

The executor and the cache normalise strings with Python's `str.strip`,
`str.lstrip(chars)`, `str.rstrip(chars)`, `str.split`, `str.splitlines`
and slicing.  These are reproduced here on `List Char` / `String`. -/

/-- Whitespace characters recognised by Python's `str.strip()` and by the
regex class `\s` (ASCII part, which is all the embedded strings use). -/
def isPyWs (c : Char) : Bool :=
  c = ' ' || c = '\t' || c = '\n' || c = '\r' || c = '\x0b' || c = '\x0c'

/-- Python `str.lstrip(chars)`: drop leading characters that belong to the
character SET `chars` (not the prefix string!). -/
def pyLstripChars (chars : List Char) (s : String) : String :=
  String.mk (s.toList.dropWhile (fun c => chars.contains c))

/-- Python `str.rstrip(chars)`: drop trailing characters in the set. -/
def pyRstripChars (chars : List Char) (s : String) : String :=
  String.mk ((s.toList.reverse.dropWhile (fun c => chars.contains c)).reverse)

/-- Python `str.strip()` with no argument: trim whitespace on both ends. -/
def pyStrip (s : String) : String :=
  String.mk
    (((s.toList.dropWhile isPyWs).reverse.dropWhile isPyWs).reverse)

/-- Python `str.rstrip()` with no argument. -/
def pyRstripWs (s : String) : String :=
  String.mk ((s.toList.reverse.dropWhile isPyWs).reverse)

/-- Helper for Python `str.split()` (no separator): split on whitespace
runs, discarding empty fields.  `cur` is the current field, reversed. -/
def splitWsAux : List Char → List Char → List (List Char)
  | [], cur => if cur.isEmpty then [] else [cur.reverse]
  | c :: cs, cur =>
    if isPyWs c then
      if cur.isEmpty then splitWsAux cs [] else cur.reverse :: splitWsAux cs []
    else
      splitWsAux cs (c :: cur)

/-- Python `str.split()` with no separator. -/
def pySplitWs (s : String) : List String :=
  (splitWsAux s.toList []).map String.mk

/-- Helper for Python `str.split(sep)` with a one-character separator:
empty fields are kept. -/
def splitOnCharAux (sep : Char) : List Char → List Char → List (List Char)
  | [], cur => [cur.reverse]
  | c :: cs, cur =>
    if c = sep then cur.reverse :: splitOnCharAux sep cs []
    else splitOnCharAux sep cs (c :: cur)

/-- Python `str.split(sep)` for a one-character separator. -/
def pySplitOnChar (sep : Char) (s : String) : List String :=
  (splitOnCharAux sep s.toList []).map String.mk

/-- Boolean prefix test on character lists. -/
def isPrefixL : List Char → List Char → Bool
  | [], _ => true
  | _ :: _, [] => false
  | p :: ps, c :: cs => p = c && isPrefixL ps cs

/-- Suffix that follows the FIRST occurrence of `sep` in `cs`
(`none` when `sep` does not occur). -/
def findSub (sep : List Char) : List Char → Option (List Char)
  | [] => if sep.isEmpty then some [] else none
  | c :: cs =>
    if isPrefixL sep (c :: cs) then some ((c :: cs).drop sep.length)
    else findSub sep cs

/-- Characters up to (excluding) the next occurrence of `sep`. -/
def takeUntilSub (sep : List Char) : List Char → List Char
  | [] => []
  | c :: cs =>
    if isPrefixL sep (c :: cs) then []
    else c :: takeUntilSub sep cs

/-- Python `text[:n]` on a string, counting characters. -/
def strTake (s : String) (n : Nat) : String :=
  String.mk (s.toList.take n)

/-- Python `len(text)` (character count). -/
def strLen (s : String) : Nat :=
  s.toList.length

/-- Python `"".join(lines)`. -/
def joinL (lines : List String) : String :=
  lines.foldl (fun a b => a ++ b) ""

/-! ## A small regular-expression engine

The executor classifies commands with `re.search(pattern, command, re.I)`.
The patterns use only literals, `\s`, `.`, character classes, `*`, `+`, `?`
and alternation, so a Brzozowski-derivative matcher over an explicit syntax
suffices.  Case-insensitivity is obtained by lowercasing the subject before
matching (the patterns themselves are lower case). -/

inductive Re where
  | eps : Re
  | cls (p : Char → Bool) : Re
  | seq (a b : Re) : Re
  | alt (a b : Re) : Re
  | star (a : Re) : Re

/-- The regex accepts the empty word. -/
def Re.nullable : Re → Bool
  | .eps => true
  | .cls _ => false
  | .seq a b => a.nullable && b.nullable
  | .alt a b => a.nullable || b.nullable
  | .star _ => true

/-- Brzozowski derivative with respect to one character. -/
def Re.deriv : Re → Char → Re
  | .eps, _ => .cls (fun _ => false)
  | .cls p, c => if p c then .eps else .cls (fun _ => false)
  | .seq a b, c =>
    if a.nullable then .alt (.seq (a.deriv c) b) (b.deriv c)
    else .seq (a.deriv c) b
  | .alt a b, c => .alt (a.deriv c) (b.deriv c)
  | .star a, c => .seq (a.deriv c) (.star a)

/-- Some prefix of `cs` (possibly empty) is in the language of `r`. -/
def Re.matchHere : Re → List Char → Bool
  | r, [] => r.nullable
  | r, c :: cs => r.nullable || (r.deriv c).matchHere cs

/-- Python `re.search` (without anchors): some substring of `cs` matches. -/
def Re.searchIn (r : Re) : List Char → Bool
  | [] => r.nullable
  | c :: cs => r.matchHere (c :: cs) || r.searchIn cs

/-- Literal character. -/
def rchar (c : Char) : Re := .cls (fun d => d = c)

/-- Literal string. -/
def rstr (s : String) : Re :=
  s.toList.foldr (fun c r => .seq (rchar c) r) .eps

/-- Regex `\s`. -/
def rws : Re := .cls isPyWs

/-- Regex `\s+`. -/
def rwsPlus : Re := .seq rws (.star rws)

/-- Regex `.` (any character except a newline; the patterns are compiled
without DOTALL). -/
def rdot : Re := .cls (fun c => !(c = '\n'))

/-- Regex `r?`. -/
def ropt (r : Re) : Re := .alt r .eps

/-- Character class from an explicit list. -/
def rof (cs : List Char) : Re := .cls (fun c => cs.contains c)

/-- Regex `\d+`. -/
def rdigits : Re := .seq (.cls Char.isDigit) (.star (.cls Char.isDigit))

/-! ## AsyncProcessExecutor: command classification

From `AsyncProcessExecutor.BLOCKED_PATTERNS`, `CONFIRM_PATTERNS` and
`NOISY_PATTERNS`.  All three lists are matched with `re.search(p, cmd, re.I)`;
the noisy patterns are anchored at the start with `^` (no MULTILINE flag, so
`^` means position 0), and `^make\b` carries a word boundary handled
separately below. -/

/-- The hard-coded blocklist, pattern for pattern:
`sudo\s+`, `rm\s+-[rf]*\s+[/~]`, `rm\s+-[rf]*\s+\.\.`, `>\s*/dev/`,
`chmod\s+777`, `curl.*\|\s*(ba)?sh`, `wget.*\|\s*(ba)?sh`, `mkfs\.`,
`dd\s+if=`, the fork bomb `:\(\)\s*\{\s*:\|:\s*&\s*\}`, `>\s*/etc/`,
`git\s+push.*--force`. -/
def blockedPatterns : List Re :=
  [ .seq (rstr "sudo") rwsPlus
  , .seq (rstr "rm") (.seq rwsPlus (.seq (rchar '-')
      (.seq (.star (rof ['r', 'f'])) (.seq rwsPlus (rof ['/', '~'])))))
  , .seq (rstr "rm") (.seq rwsPlus (.seq (rchar '-')
      (.seq (.star (rof ['r', 'f'])) (.seq rwsPlus (rstr "..")))))
  , .seq (rchar '>') (.seq (.star rws) (rstr "/dev/"))
  , .seq (rstr "chmod") (.seq rwsPlus (rstr "777"))
  , .seq (rstr "curl") (.seq (.star rdot) (.seq (rchar '|')
      (.seq (.star rws) (.seq (ropt (rstr "ba")) (rstr "sh")))))
  , .seq (rstr "wget") (.seq (.star rdot) (.seq (rchar '|')
      (.seq (.star rws) (.seq (ropt (rstr "ba")) (rstr "sh")))))
  , rstr "mkfs."
  , .seq (rstr "dd") (.seq rwsPlus (rstr "if="))
  , .seq (rstr ":()") (.seq (.star rws) (.seq (rchar '\x7b')
      (.seq (.star rws) (.seq (rstr ":|:")
        (.seq (.star rws) (.seq (rchar '&')
          (.seq (.star rws) (rchar '\x7d'))))))))
  , .seq (rchar '>') (.seq (.star rws) (rstr "/etc/"))
  , .seq (rstr "git") (.seq rwsPlus (.seq (rstr "push")
      (.seq (.star rdot) (rstr "--force"))))
  ]

/-- The confirmation-required list:
`git\s+push`, `git\s+reset\s+--hard`, `git\s+clean\s+-[fd]`,
`git\s+checkout\s+\.`, `rm\s+-[rf]`, `pip\s+uninstall`, `npm\s+publish`,
`docker\s+(rm|rmi|system\s+prune)`. -/
def confirmPatterns : List Re :=
  [ .seq (rstr "git") (.seq rwsPlus (rstr "push"))
  , .seq (rstr "git") (.seq rwsPlus (.seq (rstr "reset")
      (.seq rwsPlus (rstr "--hard"))))
  , .seq (rstr "git") (.seq rwsPlus (.seq (rstr "clean")
      (.seq rwsPlus (.seq (rchar '-') (rof ['f', 'd'])))))
  , .seq (rstr "git") (.seq rwsPlus (.seq (rstr "checkout")
      (.seq rwsPlus (rchar '.'))))
  , .seq (rstr "rm") (.seq rwsPlus (.seq (rchar '-') (rof ['r', 'f'])))
  , .seq (rstr "pip") (.seq rwsPlus (rstr "uninstall"))
  , .seq (rstr "npm") (.seq rwsPlus (rstr "publish"))
  , .seq (rstr "docker") (.seq rwsPlus (.alt (rstr "rm") (.alt (rstr "rmi")
      (.seq (rstr "system") (.seq rwsPlus (rstr "prune"))))))
  ]

/-- The noisy list minus `^make\b` (all anchored at the start):
`^(pip|pip3|python -m pip)\s+install`, `^npm\s+(install|ci|update)`,
`^yarn(\s+install)?`, `^pnpm\s+install`, `^git\s+(clone|pull|fetch)`,
`^apt(-get)?\s+(install|update)`, `^cargo\s+build`. -/
def noisyAnchoredPatterns : List Re :=
  [ .seq (.alt (rstr "pip") (.alt (rstr "pip3") (rstr "python -m pip")))
      (.seq rwsPlus (rstr "install"))
  , .seq (rstr "npm") (.seq rwsPlus
      (.alt (rstr "install") (.alt (rstr "ci") (rstr "update"))))
  , .seq (rstr "yarn") (ropt (.seq rwsPlus (rstr "install")))
  , .seq (rstr "pnpm") (.seq rwsPlus (rstr "install"))
  , .seq (rstr "git") (.seq rwsPlus
      (.alt (rstr "clone") (.alt (rstr "pull") (rstr "fetch"))))
  , .seq (.seq (rstr "apt") (ropt (rstr "-get"))) (.seq rwsPlus
      (.alt (rstr "install") (rstr "update")))
  , .seq (rstr "cargo") (.seq rwsPlus (rstr "build"))
  ]

/-- A word character for the boundary `\b` (Python `\w`, ASCII part). -/
def isWordChar (c : Char) : Bool :=
  c.isAlphanum || c = '_'

/-- The noisy pattern `^make\b`: the lowercased command starts with "make"
followed by the end of the string or a non-word character. -/
def matchesMakeAnchor : List Char → Bool
  | 'm' :: 'a' :: 'k' :: 'e' :: rest =>
    match rest with
    | [] => true
    | c :: _ => !(isWordChar c)
  | _ => false

/-- Lowercased character list of a command, for `re.I` matching. -/
def lowerChars (s : String) : List Char :=
  s.toList.map Char.toLower

/-- `AsyncProcessExecutor._is_blocked`. -/
def isBlocked (command : String) : Bool :=
  blockedPatterns.any (fun r => r.searchIn (lowerChars command))

/-- `AsyncProcessExecutor._needs_confirm`. -/
def needsConfirm (command : String) : Bool :=
  confirmPatterns.any (fun r => r.searchIn (lowerChars command))

/-- `AsyncProcessExecutor._is_noisy` (anchored patterns match at position 0
only, since the `^` anchors are compiled without MULTILINE). -/
def isNoisy (command : String) : Bool :=
  noisyAnchoredPatterns.any (fun r => r.matchHere (lowerChars command))
    || matchesMakeAnchor (lowerChars command)

/-- Outcome of the pre-launch part of `run_command` / `run_background`:
which result dictionary is returned, or that a subprocess is created with
the (stripped) command. -/
inductive CmdGateOutcome where
  | emptyErr : CmdGateOutcome
  | blockedErr : CmdGateOutcome
  | confirmErr (message : String) : CmdGateOutcome
  | spawned (cmd : String) : CmdGateOutcome
deriving DecidableEq, Repr

/-- The pre-launch gate of `AsyncProcessExecutor.run_command` (lines
214-250): strip the command, reject empty commands, then the blocklist,
then unconfirmed dangerous commands; only after that is a log entry made
and `create_subprocess_shell` called.  The cwd validation sits between the
confirmation gate and the launch; it is modelled at its default
(`cwd=None`, which always resolves to the root). -/
def runCommandGate (command : String) (confirmed : Bool) : CmdGateOutcome :=
  let c := pyStrip command
  if c = "" then .emptyErr
  else if isBlocked c then .blockedErr
  else if needsConfirm c && !confirmed then
    .confirmErr ("Command \x27" ++ c ++ "\x27 requires confirmed=True")
  else .spawned c

/-- The pre-launch gate of `AsyncProcessExecutor.run_background` (lines
319-348): strip, empty check, blocklist — and no confirmation check — then
peer deduplication and `create_subprocess_shell`. -/
def runBackgroundGate (command : String) : CmdGateOutcome :=
  let c := pyStrip command
  if c = "" then .emptyErr
  else if isBlocked c then .blockedErr
  else .spawned c

/-! ## AsyncProcessExecutor: binary detection, output shaping, readback -/

/-- A character counted as non-printable by `_is_binary`:
`ord(c) < 32 and c not in chr(10)+chr(13)+chr(9)`. -/
def pyNonPrintable (c : Char) : Bool :=
  c.toNat < 32 && !(c = '\n') && !(c = '\r') && !(c = '\t')

/-- `AsyncProcessExecutor._is_binary` (lines 149-153).  The Python code
compares `non_printable > len(text[:1000]) * 0.1` in floating point; for
integer counts with length at most 1000 the comparison coincides with the
exact rational test `10 * non_printable > len(text[:1000])` (the rounded
product `len * 0.1` always lands strictly between the neighbouring
integers, or exactly on `len / 10` when `len` is a multiple of 10, never
below it), which is the form used here.  Note the STRICT inequality. -/
def isBinary (text : String) : Bool :=
  if text.toList.isEmpty then false
  else
    let t := text.toList.take 1000
    10 * (t.filter pyNonPrintable).length > t.length

/-- The fields of a `CommandLog` that output formatting and readback
consume.  The process / reader-task handles are omitted; timestamps are
omitted because no claim touches TTL eviction. -/
structure LogModel where
  cmd_id : String
  command : String
  exit_code : Option Int
  stdout_lines : List String
  stderr_lines : List String
  is_running : Bool
  output_buffer : List String
  pagination_count : Nat
deriving DecidableEq, Repr

/-- Result dictionary of `_format_output`. -/
structure FormatResult where
  cmd_id : String
  exit_code : Option Int
  status : String
  output : String
  total_lines : Nat
  hint : Option String
deriving DecidableEq, Repr

/-- The exact notice string returned for binary output. -/
def binaryNotice : String := "[Binary output detected. Cannot display.]"

/-- The success line for noisy commands (the source file carries a
mangled check mark, reproduced byte for byte). -/
def noisySuppressed (totalLines : Nat) : String :=
  "\u00e2\u0153\u201c Completed successfully. [" ++ toString totalLines
    ++ " lines suppressed]"

/-- `AsyncProcessExecutor._format_output` (lines 155-204).
`defaultTailLines` is the constructor parameter (default 40). -/
def formatOutput (defaultTailLines : Nat) (log : LogModel)
    (verbose : Bool) : FormatResult :=
  let allLines := log.stdout_lines ++ log.stderr_lines
  let totalLines := allLines.length
  let sample := joinL (allLines.take 10)
  if isBinary sample then
    { cmd_id := log.cmd_id, exit_code := log.exit_code,
      status := "completed", output := binaryNotice,
      total_lines := totalLines, hint := none }
  else
    let noisy := isNoisy log.command
    let success := log.exit_code = some 0
    let shaped : String × Bool × Nat :=
      if verbose then (joinL allLines, false, 0)
      else if success && noisy then (noisySuppressed totalLines, true, 0)
      else if success then
        let tail := if totalLines > 10 then
          allLines.drop (totalLines - 10) else allLines
        (joinL tail, decide (totalLines > 10), tail.length)
      else
        let tail := if totalLines > defaultTailLines then
          allLines.drop (totalLines - defaultTailLines) else allLines
        (joinL tail, decide (totalLines > defaultTailLines), tail.length)
    { cmd_id := log.cmd_id, exit_code := log.exit_code,
      status := "completed", output := pyRstripWs shaped.1,
      total_lines := totalLines,
      hint :=
        if shaped.2.1 && !(success && noisy) then
          some ("Use read_log(\x27" ++ log.cmd_id
            ++ "\x27) to see more. Showing last " ++ toString shaped.2.2
            ++ " of " ++ toString totalLines ++ " lines.")
        else none }

/-- Result of `read_log` (the log-not-found branch is omitted: the model
takes the log itself). -/
inductive ReadLogResult where
  | paginationLimit : ReadLogResult
  | emptyLog (statusMsg : String) (isRunning : Bool) : ReadLogResult
  | binaryError : ReadLogResult
  | page (lines : String) (showing : String) (totalLines : Nat)
      (isRunning : Bool) (paginationRemaining : Int)
      (prev next : Option String) : ReadLogResult
deriving DecidableEq, Repr

/-- The line list `read_log` paginates over (lines 522-525). -/
def readLogLines (log : LogModel) : List String :=
  if log.is_running && !log.output_buffer.isEmpty then log.output_buffer
  else log.stdout_lines ++ log.stderr_lines

/-- The clamped `(offset, end)` pair computed by `read_log` for a page of
`total` lines (lines 533-540); `total` is positive on this path. -/
def readLogWindow (total : Nat) (offset : Option Int) (limit : Nat)
    (fromEnd : Bool) : Nat × Nat :=
  let off0 : Int := match offset with
    | none => if fromEnd then max 0 ((total : Int) - limit) else 0
    | some o => o
  let off := (max 0 (min off0 ((total : Int) - 1))).toNat
  (off, min (off + limit) total)

/-- The joined text of the requested page, before `rstrip`. -/
def readLogPageText (log : LogModel) (offset : Option Int) (limit : Nat)
    (fromEnd : Bool) : String :=
  let allLines := readLogLines log
  let w := readLogWindow allLines.length offset limit fromEnd
  joinL ((allLines.drop w.1).take (w.2 - w.1))

/-- `AsyncProcessExecutor.read_log` (lines 497-565) on a present log.
`maxPaginationCalls` is the constructor parameter (default 3).  Returns
the result dictionary and the log with its pagination counter bumped. -/
def readLog (maxPaginationCalls : Nat) (log : LogModel)
    (offset : Option Int) (limit : Nat) (fromEnd : Bool) :
    ReadLogResult × LogModel :=
  let log := { log with pagination_count := log.pagination_count + 1 }
  if log.pagination_count > maxPaginationCalls then
    (.paginationLimit, log)
  else
    let allLines := readLogLines log
    let total := allLines.length
    if total = 0 then
      (.emptyLog (if log.is_running then "still starting..." else "")
        log.is_running, log)
    else
      let w := readLogWindow total offset limit fromEnd
      let output := joinL ((allLines.drop w.1).take (w.2 - w.1))
      if isBinary output then (.binaryError, log)
      else
        (.page (pyRstripWs output)
          ("lines " ++ toString (w.1 + 1) ++ "-" ++ toString w.2
            ++ " of " ++ toString total)
          total log.is_running
          ((maxPaginationCalls : Int) - (log.pagination_count : Int))
          (if w.1 > 0 then
            some ("read_log(\x27" ++ log.cmd_id ++ "\x27, offset="
              ++ toString (max 0 ((w.1 : Int) - (limit : Int))) ++ ")")
          else none)
          (if w.2 < total then
            some ("read_log(\x27" ++ log.cmd_id ++ "\x27, offset="
              ++ toString w.2 ++ ")")
          else none), log)

/-! ## AsyncProcessExecutor: URL auto-detection

`_detect_url` (lines 400-417) tries five patterns in order with
`re.search(p, output, re.IGNORECASE)` and returns group 1 of the first
pattern that matches, expanding a digits-only capture to
`http://localhost:<port>`.  Captures are not expressible in the derivative
engine, so each pattern gets a hand-written leftmost matcher that returns
the captured text from the ORIGINAL string (literals compare
case-insensitively, as `re.I` demands, but the capture keeps its case). -/

/-- Case-insensitive literal match: on success, the remaining input. -/
def ciDrop : List Char → List Char → Option (List Char)
  | [], cs => some cs
  | _ :: _, [] => none
  | p :: ps, c :: cs =>
    if p.toLower = c.toLower then ciDrop ps cs else none

/-- Match `https?://\S+` and return the capture (the maximal run of
non-whitespace characters, which contains the scheme). -/
def matchHttpUrl (cs : List Char) : Option (List Char) :=
  let rest? :=
    match ciDrop "http".toList cs with
    | none => none
    | some r1 =>
      match ciDrop "s://".toList r1 with
      | some r2 => some r2
      | none => ciDrop "://".toList r1
  match rest? with
  | none => none
  | some rest =>
    match rest.takeWhile (fun c => !isPyWs c) with
    | [] => none
    | _ :: _ => some (cs.takeWhile (fun c => !isPyWs c))

/-- Match `\d+` and return the digit run. -/
def matchDigits (cs : List Char) : Option (List Char) :=
  match cs.takeWhile Char.isDigit with
  | [] => none
  | ds => some ds

/-- Try a matcher at every position, leftmost first (the semantics of
`re.search` for these patterns, which backtrack only within one
position). -/
def searchCapture (m : List Char → Option (List Char)) :
    List Char → Option (List Char)
  | [] => m []
  | c :: cs =>
    match m (c :: cs) with
    | some r => some r
    | none => searchCapture m cs

/-- Pattern `Local:\s*(https?://\S+)` at one position.  The whitespace
skip is safely greedy: no `\s` character can start `https?://`. -/
def matchLocalAt (cs : List Char) : Option (List Char) :=
  match ciDrop "local:".toList cs with
  | none => none
  | some r => matchHttpUrl (r.dropWhile isPyWs)

/-- Pattern `http://localhost:(\d+)` at one position. -/
def matchLocalhostPortAt (cs : List Char) : Option (List Char) :=
  match ciDrop "http://localhost:".toList cs with
  | none => none
  | some r => matchDigits r

/-- Pattern `http://127\.0\.0\.1:(\d+)` at one position. -/
def matchLoopbackPortAt (cs : List Char) : Option (List Char) :=
  match ciDrop "http://127.0.0.1:".toList cs with
  | none => none
  | some r => matchDigits r

/-- Pattern `Server running (?:at|on)\s*(https?://\S+)` at one position
(`at` and `on` cannot both match, so the alternation is deterministic). -/
def matchServerRunningAt (cs : List Char) : Option (List Char) :=
  match ciDrop "server running ".toList cs with
  | none => none
  | some r =>
    match ciDrop "at".toList r with
    | some r2 => matchHttpUrl (r2.dropWhile isPyWs)
    | none =>
      match ciDrop "on".toList r with
      | some r2 => matchHttpUrl (r2.dropWhile isPyWs)
      | none => none

/-- Pattern `listening on\s*(https?://\S+)` at one position. -/
def matchListeningOnAt (cs : List Char) : Option (List Char) :=
  match ciDrop "listening on".toList cs with
  | none => none
  | some r => matchHttpUrl (r.dropWhile isPyWs)

/-- Python `str.isdigit` restricted to ASCII: non-empty and all digits. -/
def isDigitsStr (cs : List Char) : Bool :=
  !cs.isEmpty && cs.all Char.isDigit

/-- `AsyncProcessExecutor._detect_url`. -/
def detectUrl (output : String) : Option String :=
  let cs := output.toList
  let hit :=
    match searchCapture matchLocalAt cs with
    | some u => some u
    | none =>
      match searchCapture matchLocalhostPortAt cs with
      | some u => some u
      | none =>
        match searchCapture matchLoopbackPortAt cs with
        | some u => some u
        | none =>
          match searchCapture matchServerRunningAt cs with
          | some u => some u
          | none => searchCapture matchListeningOnAt cs
  match hit with
  | none => none
  | some u =>
    if isDigitsStr u then some ("http://localhost:" ++ String.mk u)
    else some (String.mk u)

/-! ## Association lists (Python dict) -/

/-- Lookup in an association list (Python `d.get(k)`): the first binding
of the key wins. -/
def alookup {α : Type} : List (String × α) → String → Option α
  | [], _ => none
  | p :: t, k => if p.1 = k then some p.2 else alookup t k

/-- Remove every binding of `k` (Python `d.pop(k, None)`; dict keys are
unique, so at most one binding is present in well-formed states). -/
def aerase {α : Type} : List (String × α) → String → List (String × α)
  | [], _ => []
  | p :: t, k => if p.1 = k then aerase t k else p :: aerase t k

/-- Python `d[k] = v`: the binding for `k` is replaced (position in the
list is irrelevant to `alookup`, so the new binding goes last). -/
def ainsert {α : Type} (m : List (String × α)) (k : String) (v : α) :
    List (String × α) :=
  aerase m k ++ [(k, v)]

/-- Number of bindings an association list holds for a key. -/
def countKey {α : Type} : List (String × α) → String → Nat
  | [], _ => 0
  | p :: t, k => (if p.1 = k then 1 else 0) + countKey t k

/-! ## FileCache and FSTools (backend_tools.py)

The cache is a bounded write-through map from normalised paths to
contents, with an explicit access-order list for LRU eviction. -/

/-- `FileCache` state (`_cache`, `_access_order`, `_max_entries`). -/
structure FileCache where
  cache : List (String × String)
  accessOrder : List String
  maxEntries : Nat
deriving Repr

/-- A fresh cache (`FileCache(max_entries=50)` by default). -/
def FileCache.empty (maxEntries : Nat := 50) : FileCache :=
  { cache := [], accessOrder := [], maxEntries := maxEntries }

/-- `FileCache.get`: on a hit the path moves to the back of the access
order (`list.remove` drops the first occurrence); a miss changes
nothing. -/
def FileCache.get (fc : FileCache) (path : String) :
    Option String × FileCache :=
  match alookup fc.cache path with
  | some content =>
    (some content,
      { fc with accessOrder := fc.accessOrder.erase path ++ [path] })
  | none => (none, fc)

/-- The eviction loop at the top of `FileCache.set`:
`while len(cache) >= max_entries and access_order: evict oldest`. -/
def evictLoop (maxEntries : Nat) :
    List (String × String) → List String →
    List (String × String) × List String
  | c, [] => (c, [])
  | c, oldest :: rest =>
    if c.length ≥ maxEntries then evictLoop maxEntries (aerase c oldest) rest
    else (c, oldest :: rest)

/-- `FileCache.set`: evict to capacity, store the content, move the path
to the back of the access order. -/
def FileCache.set (fc : FileCache) (path content : String) : FileCache :=
  let ev := evictLoop fc.maxEntries fc.cache fc.accessOrder
  { cache := ainsert ev.1 path content,
    accessOrder := ev.2.erase path ++ [path],
    maxEntries := fc.maxEntries }

/-- `FileCache.invalidate`. -/
def FileCache.invalidate (fc : FileCache) (path : String) : FileCache :=
  { fc with cache := aerase fc.cache path,
            accessOrder := fc.accessOrder.erase path }

/-- `FSTools._normalize_path`: `path.lstrip("./").rstrip("/")`.  NOTE:
Python's `lstrip` takes a character SET, so this removes ALL leading dots
and slashes, and `rstrip("/")` removes all trailing slashes. -/
def normalizePath (path : String) : String :=
  pyRstripChars ['/'] (pyLstripChars ['.', '/'] path)

/-- The behaviour the spec describes for path normalization, modelled
from the spec words "strips leading ./ and trailing /": remove exactly
one leading "./" prefix and one trailing "/" and nothing else.  Used only
to compare against `normalizePath` above. -/
def specNormalizePath (path : String) : String :=
  let p1 := if path.toList.take 2 = ['.', '/'] then
    String.mk (path.toList.drop 2) else path
  if p1.toList.getLast? = some '/' then
    String.mk (p1.toList.dropLast) else p1

/-- The backend seen by `FSTools`: provider reads and writes which either
succeed or raise.  `readF`/`writeF` stand for one call at the moment the
tools invoke them. -/
structure Backend where
  readF : String → Except String String
  writeF : String → String → Except String Unit

/-- `FSTools.read_file` (lines 139-162): normalise, try the cache, else
read from the backend and populate the cache; a raised backend error
becomes an error string. -/
def FSTools.read_file (be : Backend) (fc : FileCache) (path : String) :
    String × FileCache :=
  let norm := normalizePath path
  match FileCache.get fc norm with
  | (some cached, fc2) => (cached, fc2)
  | (none, fc2) =>
    match be.readF path with
    | .ok content => (content, fc2.set norm content)
    | .error e => ("Error reading file: " ++ e, fc2)

/-- `FSTools.write_file` (lines 164-184): write through the backend, then
update the cache; on a raised backend error the cache entry is
invalidated. -/
def FSTools.write_file (be : Backend) (fc : FileCache)
    (path content : String) : String × FileCache :=
  let norm := normalizePath path
  match be.writeF path content with
  | .ok _ => ("✓ Written to " ++ path, fc.set norm content)
  | .error e => ("Error writing file: " ++ e, fc.invalidate norm)

/-! ## SandboxManager (sandbox.py) -/

/-- `UserSandbox` (the opaque provider handle is represented by its
sandbox id, which is the only part of it the manager consults). -/
structure UserSandbox where
  user_id : String
  sandbox_id : String
  preview_url : Option String := none
  dev_server_running : Bool := false
  workspace_path : String := "/home/user/workspace"
deriving DecidableEq, Repr

/-- Calls the manager makes into the sandbox provider. -/
inductive ProviderEvent where
  | kill (sandbox_id : String) : ProviderEvent
  | created (sandbox_id : String) : ProviderEvent
deriving DecidableEq, Repr

/-- The manager state: the dict `_sandboxes : user_id -> UserSandbox`. -/
def SMState : Type := List (String × UserSandbox)

/-- `SandboxManager.destroy` (lines 94-106): pop the mapping and attempt
a provider-side kill, whose errors are swallowed; returns False without
touching anything when the user has no sandbox. -/
def SandboxManager.destroy (st : SMState) (userId : String) :
    Bool × SMState × List ProviderEvent :=
  match alookup st userId with
  | none => (false, st, [])
  | some us => (true, aerase st userId, [.kill us.sandbox_id])

/-- `SandboxManager.create` (lines 65-92): destroy any existing sandbox
for the user first, then allocate a fresh one from the provider
(`freshId` is the id the provider hands back) and record it. -/
def SandboxManager.create (st : SMState) (userId freshId : String) :
    UserSandbox × SMState × List ProviderEvent :=
  let destroyed :=
    if (alookup st userId).isSome then
      let d := SandboxManager.destroy st userId
      (d.2.1, d.2.2)
    else (st, [])
  let us : UserSandbox := { user_id := userId, sandbox_id := freshId }
  (us, ainsert destroyed.1 userId us, destroyed.2 ++ [.created freshId])

/-! ## Agent event pipeline (agent_runner.stream_agent_events)

The underlying LangGraph stream is a list of raw events; the pipeline
projects them to the public alphabet, captures a preview URL from tool
outputs and ends with one `done`.  Token streaming is disabled in the
source (the `on_chat_model_stream` branch is commented out), so raw
model-token events fall under `otherEvent`. -/

/-- A raw event off `graph.astream_events` with the fields the pipeline
reads.  Anything whose `event` field is neither `on_tool_start` nor
`on_tool_end` is `otherEvent`. -/
inductive RawEvent where
  | onToolStart (name : String) (args : List (String × String)) : RawEvent
  | onToolEnd (name : String) (output : String) : RawEvent
  | otherEvent : RawEvent
deriving DecidableEq, Repr

/-- Events yielded by `stream_agent_events`. -/
inductive AgentEvent where
  | token (content : String) : AgentEvent
  | userMessage (content : String) : AgentEvent
  | toolStart (tool : String) (args : List (String × String)) : AgentEvent
  | toolEnd (tool : String) (result : String) : AgentEvent
  | previewReady (url : String) : AgentEvent
  | errorEv (message : String) : AgentEvent
  | doneEv (previewUrl : Option String) : AgentEvent
deriving DecidableEq, Repr

/-- Python `args.get(key, "")`. -/
def getArg (args : List (String × String)) (k : String) : String :=
  (alookup args k).getD ""

/-- The URL extraction in the `on_tool_end` branch (lines 145-151):
`output.split("Preview URL:")[1].strip().split()[0]` under
`if "Preview URL:" in output`, with the bare `except` turning an
IndexError (nothing after the marker) into no event.  Returns the first
whitespace-delimited token after the first occurrence of the marker and
before any second occurrence. -/
def extractPreviewUrl (output : String) : Option String :=
  let sep := "Preview URL:".toList
  match findSub sep output.toList with
  | none => none
  | some afterFirst =>
    match splitWsAux (takeUntilSub sep afterFirst) [] with
    | [] => none
    | t :: _ => some (String.mk t)

/-- The body of `stream_agent_events` (lines 112-153) as a function of
the raw event list; `pu` is the `preview_url` local. -/
def streamAgentEventsGo : List RawEvent → Option String → List AgentEvent
  | [], pu => [.doneEv pu]
  | .onToolStart n args :: rest, pu =>
    if n = "show_user_message" then
      let m := getArg args "message"
      (if m = "" then [] else [.userMessage m]) ++ streamAgentEventsGo rest pu
    else .toolStart n args :: streamAgentEventsGo rest pu
  | .onToolEnd n out :: rest, pu =>
    if n = "show_user_message" then streamAgentEventsGo rest pu
    else
      let out5 := strTake out 500
      .toolEnd n out5 ::
        (match extractPreviewUrl out5 with
        | some u => .previewReady u :: streamAgentEventsGo rest (some u)
        | none => streamAgentEventsGo rest pu)
  | .otherEvent :: rest, pu => streamAgentEventsGo rest pu

/-- `stream_agent_events` for a non-raising underlying stream. -/
def streamAgentEvents (raws : List RawEvent) : List AgentEvent :=
  streamAgentEventsGo raws none

/-! ## Session orchestrator (routers/agent.py)

`send_message` appends the user message, flips the session to `busy` and
records the pending slot; `stream_events` checks ownership and the slot,
then runs the `generate()` generator, which provisions the sandbox when
needed, forwards agent events to the client, persists the assistant
message, resets the status and finally releases the slot.  SSE framing
(`data: json\n\n`) is abstracted to a typed event. -/

/-- A step dictionary collected for the activity feed. -/
structure Step where
  id : String
  type : String
  title : String
  status : String
deriving DecidableEq, Repr

/-- Events written to the server-to-client stream by `generate()`. -/
inductive OutEvent where
  | previewUrl (url : String) : OutEvent
  | token (content : String) : OutEvent
  | userMessage (content : String) : OutEvent
  | toolStart (tool : String) (step : Step) : OutEvent
  | toolEnd (tool : String) (stepId : Option String) : OutEvent
  | previewReady (url : String) : OutEvent
  | errorEv (message : String) : OutEvent
  | doneEv (previewUrl : Option String) : OutEvent
deriving DecidableEq, Repr

/-- `VISIBLE_TOOLS` (agent.py lines 23-30). -/
def visibleTools : List String :=
  ["read_file", "write_file", "list_files", "grep_search", "fuzzy_find",
   "run_command"]

/-- Python `str.title()`: upper-case the first letter of each alphabetic
run, lower-case the rest (ASCII behaviour; only reached by the dead
fallback title branch). -/
def pyTitleGo : List Char → Bool → List Char
  | [], _ => []
  | c :: cs, prevAlpha =>
    if c.isAlpha then
      (if prevAlpha then c.toLower else c.toUpper) :: pyTitleGo cs true
    else c :: pyTitleGo cs false

/-- Python `tool_name.replace("_", " ").title()`. -/
def fallbackTitle (tool : String) : String :=
  String.mk
    (pyTitleGo (tool.toList.map (fun c => if c = '_' then ' ' else c)) false)

/-- The human-facing step title (agent.py lines 151-171). -/
def stepTitle (tool : String) (args : List (String × String)) : String :=
  let path := getArg args "path"
  let filename :=
    if path = "" then "" else (pySplitOnChar '/' path).getLastD ""
  if tool = "write_file" then
    if filename = "" then "Edited file" else "Edited " ++ filename
  else if tool = "read_file" then
    if filename = "" then "Read file" else "Read " ++ filename
  else if tool = "list_files" then
    if path = "" then "Checked folder" else "Checked " ++ path
  else if tool = "grep_search" then
    let pattern := getArg args "pattern"
    "Searched \x27" ++ strTake pattern 20
      ++ (if strLen pattern > 20 then "..." else "") ++ "\x27"
  else if tool = "fuzzy_find" then
    "Finding \x27" ++ getArg args "query" ++ "\x27"
  else if tool = "run_command" then
    let cmd := getArg args "command"
    "Running " ++ strTake cmd 25 ++ (if strLen cmd > 25 then "..." else "")
  else fallbackTitle tool

/-- Mark the first step with the given id `done` (the Python loop breaks
at the first match). -/
def markStepDone : List Step → String → List Step
  | [], _ => []
  | s :: rest, sid =>
    if s.id = sid then { s with status := "done" } :: rest
    else s :: markStepDone rest sid

/-- The per-turn mutable locals of `generate()`'s event loop. -/
structure LoopState where
  content : String
  steps : List Step
  counter : Nat
  toolMap : List (String × String)
deriving DecidableEq, Repr

/-- One iteration of the `async for event in stream_agent_events(...)`
loop (agent.py lines 135-202).  `pu` is the `preview_url` local, which
the loop never modifies.  An event type with no matching branch — in
particular `preview_ready` — is silently dropped. -/
def handleAgentEvent (pu : Option String) (ev : AgentEvent)
    (st : LoopState) : List OutEvent × LoopState :=
  match ev with
  | .token c => ([.token c], { st with content := st.content ++ c })
  | .userMessage c =>
    ([.userMessage c], { st with content := st.content ++ c })
  | .toolStart t args =>
    if visibleTools.contains t then
      let counter := st.counter + 1
      let sid := "step-" ++ toString counter
      let step : Step :=
        { id := sid, type := "tool", title := stepTitle t args,
          status := "running" }
      ([.toolStart t step],
        { content := st.content, steps := st.steps ++ [step],
          counter := counter, toolMap := ainsert st.toolMap t sid })
    else ([], st)
  | .toolEnd t _result =>
    if visibleTools.contains t then
      let sid := alookup st.toolMap t
      let steps :=
        match sid with
        | some s => markStepDone st.steps s
        | none => st.steps
      ([.toolEnd t sid], { st with steps := steps })
    else ([], st)
  | .previewReady _ => ([], st)
  | .errorEv m => ([.errorEv m], st)
  | .doneEv _ => ([.doneEv pu], st)

/-- The whole event loop. -/
def stepLoop (pu : Option String) :
    List AgentEvent → LoopState → List OutEvent × LoopState
  | [], st => ([], st)
  | ev :: rest, st =>
    let h := handleAgentEvent pu ev st
    let r := stepLoop pu rest h.2
    (h.1 ++ r.1, r.2)

/-- What one subscription run leaves behind. -/
structure GenOutput where
  events : List OutEvent
  savedAssistant : Option (String × List Step)
  sessionStatus : String
  sandboxPersisted : Option (String × Option String)
deriving DecidableEq, Repr

/-- The turn's environment: the outcome `create_sandbox` would have
(sandbox id and preview URL, or the raised error), the session's stored
preview URL for the no-provisioning path, and the agent event stream. -/
structure TurnEnv where
  createResult : Except String (String × Option String)
  storedPreviewUrl : Option String
  agentEvents : List AgentEvent
deriving Repr

/-- Steps 2-4 of `generate()` (agent.py lines 128-225): emit the preview
URL once if known, run the event loop, then persist the assistant message
(only when there is content or at least one step) and set the session
status to `ready`. -/
def generateRest (persisted : Option (String × Option String))
    (pu : Option String) (env : TurnEnv) : GenOutput :=
  let headEvents : List OutEvent :=
    match pu with
    | some u => [.previewUrl u]
    | none => []
  let loop := stepLoop pu env.agentEvents
    { content := "", steps := [], counter := 0, toolMap := [] }
  { events := headEvents ++ loop.1,
    savedAssistant :=
      if loop.2.content = "" && loop.2.steps.isEmpty then none
      else some (loop.2.content, loop.2.steps),
    sessionStatus := "ready",
    sandboxPersisted := persisted }

/-- `generate()` (agent.py lines 92-238) for a non-raising agent stream.
When the sandbox must be created and creation raises, the generator
yields `error` then `done` and RETURNS: the persistence block and the
status reset are skipped, so the session status stays `busy` (only the
`finally` releasing the slot still runs). -/
def generateTurn (needsSandbox : Bool) (env : TurnEnv) : GenOutput :=
  if needsSandbox then
    match env.createResult with
    | .error e =>
      { events := [.errorEv ("Failed to create sandbox: " ++ e),
          .doneEv none],
        savedAssistant := none,
        sessionStatus := "busy",
        sandboxPersisted := none }
    | .ok (sid, pu) => generateRest (some (sid, pu)) pu env
  else generateRest none env.storedPreviewUrl env

/-- A pending-message slot: `(user_id, content, needs_sandbox)`. -/
def SlotData : Type := String × String × Bool

/-- `send_message` (agent.py lines 33-68): ownership, busy and state
checks, then append the user message, set the status to `busy` and record
the pending slot.  Returns the new slot map and session status; the HTTP
error code otherwise. -/
def sendMessage (owned : Bool) (status : String)
    (sandboxId : Option String) (slots : List (String × SlotData))
    (sessionId userId content : String) :
    Except Nat (List (String × SlotData) × String) :=
  if !owned then .error 404
  else if status = "busy" then .error 409
  else if !(status = "pending" || status = "ready") then .error 400
  else
    .ok (ainsert slots sessionId (userId, content, sandboxId.isNone),
      "busy")

/-- The synchronous head of `stream_events` (agent.py lines 71-90): check
ownership, then `_pending_messages.get(session_id)` — a READ, not a pop —
and reject with 400 when no slot exists.  The slot map is returned
unchanged because the source never mutates it here; the pop happens only
in `generate()`'s `finally`. -/
def codeStreamBegin (slots : List (String × SlotData))
    (sessionId : String) (owned : Bool) :
    Except Nat (SlotData × List (String × SlotData)) :=
  if !owned then .error 404
  else
    match alookup slots sessionId with
    | none => .error 400
    | some d => .ok (d, slots)

/-- Modelled from the spec words "Verify ownership and a pending slot
exists; consume the slot": the begin step removes the slot, so a second
subscription would find none.  Used only for comparison with
`codeStreamBegin`. -/
def specStreamBegin (slots : List (String × SlotData))
    (sessionId : String) (owned : Bool) :
    Except Nat (SlotData × List (String × SlotData)) :=
  if !owned then .error 404
  else
    match alookup slots sessionId with
    | none => .error 400
    | some d => .ok (d, aerase slots sessionId)

/-- A whole subscription: the begin check, then the generator, then the
`finally` that releases the slot. -/
def runStream (slots : List (String × SlotData)) (sessionId : String)
    (owned : Bool) (env : TurnEnv) :
    Except Nat (GenOutput × List (String × SlotData)) :=
  match codeStreamBegin slots sessionId owned with
  | .error e => .error e
  | .ok (d, slots2) => .ok (generateTurn d.2.2 env, aerase slots2 sessionId)

/-! ## Helper lemmas about the dict model -/

theorem alookup_append {α : Type} (m1 m2 : List (String × α))
    (k : String) :
    alookup (m1 ++ m2) k =
      match alookup m1 k with
      | some v => some v
      | none => alookup m2 k := by
  induction m1 with
  | nil => simp [alookup]
  | cons p t ih =>
    by_cases h : p.1 = k <;> simp [alookup, h, ih]

theorem alookup_aerase {α : Type} (m : List (String × α)) (k : String) :
    alookup (aerase m k) k = none := by
  induction m with
  | nil => simp [aerase, alookup]
  | cons p t ih =>
    by_cases h : p.1 = k <;> simp [aerase, alookup, h, ih]

theorem alookup_aerase_ne {α : Type} (m : List (String × α))
    (k k2 : String) (h : ¬k2 = k) :
    alookup (aerase m k) k2 = alookup m k2 := by
  induction m with
  | nil => simp [aerase]
  | cons p t ih =>
    have hk : ¬k = k2 := fun hc => h hc.symm
    by_cases hp : p.1 = k
    · have hp2 : ¬p.1 = k2 := by
        intro hc
        exact h (hc.symm.trans hp)
      simp [aerase, alookup, hp, hp2, ih, hk]
    · by_cases hq : p.1 = k2 <;> simp [aerase, alookup, hp, hq, ih, h, hk]

theorem alookup_ainsert {α : Type} (m : List (String × α)) (k : String)
    (v : α) : alookup (ainsert m k v) k = some v := by
  simp [ainsert, alookup_append, alookup_aerase, alookup]

theorem alookup_ainsert_ne {α : Type} (m : List (String × α))
    (k k2 : String) (v : α) (h : ¬k2 = k) :
    alookup (ainsert m k v) k2 = alookup m k2 := by
  have hk : ¬k = k2 := fun hc => h hc.symm
  simp [ainsert, alookup_append, alookup_aerase_ne m k k2 h, alookup, hk]
  cases alookup m k2 with
  | none => simp
  | some v2 => simp

theorem countKey_aerase {α : Type} (m : List (String × α)) (k : String) :
    countKey (aerase m k) k = 0 := by
  induction m with
  | nil => simp [aerase, countKey]
  | cons p t ih =>
    by_cases h : p.1 = k <;> simp [aerase, countKey, h, ih]

theorem countKey_append {α : Type} (m1 m2 : List (String × α))
    (k : String) :
    countKey (m1 ++ m2) k = countKey m1 k + countKey m2 k := by
  induction m1 with
  | nil => simp [countKey]
  | cons p t ih =>
    by_cases h : p.1 = k
    · simp [countKey, h, ih]
      omega
    · simp [countKey, h, ih]

theorem countKey_ainsert {α : Type} (m : List (String × α)) (k : String)
    (v : α) : countKey (ainsert m k v) k = 1 := by
  simp [ainsert, countKey_append, countKey_aerase, countKey]

/-! ## Helper lemmas about the event loop -/

theorem previewReady_not_in_handleAgentEvent (pu : Option String)
    (ev : AgentEvent) (st : LoopState) (u : String) :
    OutEvent.previewReady u ∉ (handleAgentEvent pu ev st).1 := by
  cases ev with
  | token c => simp [handleAgentEvent]
  | userMessage c => simp [handleAgentEvent]
  | toolStart t args =>
    simp only [handleAgentEvent]
    split <;> simp
  | toolEnd t r =>
    simp only [handleAgentEvent]
    split <;> simp
  | previewReady v => simp [handleAgentEvent]
  | errorEv m => simp [handleAgentEvent]
  | doneEv p => simp [handleAgentEvent]

theorem previewReady_not_in_stepLoop (pu : Option String)
    (evs : List AgentEvent) (st : LoopState) (u : String) :
    OutEvent.previewReady u ∉ (stepLoop pu evs st).1 := by
  induction evs generalizing st with
  | nil => simp [stepLoop]
  | cons ev rest ih =>
    simp only [stepLoop, List.mem_append]
    rintro (h | h)
    · exact previewReady_not_in_handleAgentEvent pu ev st u h
    · exact ih _ h

theorem previewReady_not_in_generateRest
    (persisted : Option (String × Option String)) (pu : Option String)
    (env : TurnEnv) (u : String) :
    OutEvent.previewReady u ∉ (generateRest persisted pu env).events := by
  simp only [generateRest, List.mem_append]
  rintro (h | h)
  · cases pu <;> simp_all
  · exact previewReady_not_in_stepLoop pu env.agentEvents _ u h

/-! ## The claims -/

/-- Claim C1 (code bug): when the first message of a session needs a
sandbox and sandbox creation raises, the subscription stream emits an
`error` event followed by `done` and persists no assistant message — as
the claim says — but the early `return` in `generate()` skips the block
that resets the session status, so the status stays `busy` (only the
pending slot is released by the `finally`), contradicting the claim that
the session ends in `ready` and unlocks.  This run evaluates the model at
the failing input. -/
theorem C1_sandbox_failure_aborts_but_stays_busy :
    runStream [("s1", (("u1", "build me a counter", true) : SlotData))]
      "s1" true
      { createResult := .error "boom", storedPreviewUrl := none,
        agentEvents := [] }
    = .ok
      ({ events := [.errorEv "Failed to create sandbox: boom",
           .doneEv none],
         savedAssistant := none,
         sessionStatus := "busy",
         sandboxPersisted := none },
       []) := rfl

/-- Claim C2, counterexample: `stream_events` does NOT consume the
pending slot when the subscription begins — the source only calls
`_pending_messages.get` — so the begin step returns the slot map
unchanged and a second concurrent `stream_events` call for the same
session still finds the slot and is accepted rather than rejected.  The
consuming behaviour the spec describes (`specStreamBegin`) would empty
the map. -/
theorem C2_slot_not_consumed_counterexample :
    codeStreamBegin [("s1", (("u1", "hi", false) : SlotData))] "s1" true
      = .ok (("u1", "hi", false), [("s1", ("u1", "hi", false))])
    ∧ codeStreamBegin [("s1", (("u1", "hi", false) : SlotData))] "s1" true
      ≠ .error 400
    ∧ specStreamBegin [("s1", (("u1", "hi", false) : SlotData))] "s1" true
      = .ok (("u1", "hi", false), []) := by
  refine ⟨rfl, ?_, rfl⟩
  intro h
  cases h

/-- Claim C2 as amended: the subscription begin step verifies ownership
and that a pending slot exists but leaves the slot in place; the slot is
removed only when the subscription's generator finishes (its `finally`),
so a full subscription run ends with the slot erased; single-flight is
enforced not by slot consumption but by `send_message` rejecting a busy
session with 409. -/
theorem C2_slot_semantics (slots : List (String × SlotData))
    (sid : String) (d : SlotData) (env : TurnEnv)
    (sandboxId : Option String) (uid content : String)
    (h : alookup slots sid = some d) :
    codeStreamBegin slots sid true = .ok (d, slots)
    ∧ runStream slots sid true env
      = .ok (generateTurn d.2.2 env, aerase slots sid)
    ∧ sendMessage true "busy" sandboxId slots sid uid content
      = .error 409 := by
  refine ⟨?_, ?_, ?_⟩
  · simp [codeStreamBegin, h]
  · simp [runStream, codeStreamBegin, h]
  · simp [sendMessage]

/-- Witness for C2: a concrete slot map with a pending slot for
session s1. -/
theorem C2_slot_semantics_witness :
    alookup [("s1", (("u1", "hi", false) : SlotData))] "s1"
      = some ("u1", "hi", false)
    ∧ codeStreamBegin [("s1", (("u1", "hi", false) : SlotData))] "s1" true
      = .ok (("u1", "hi", false), [("s1", ("u1", "hi", false))])
    ∧ sendMessage true "busy" none
        [("s1", (("u1", "hi", false) : SlotData))] "s1" "u1" "again"
      = .error 409 := by
  have h : alookup [("s1", (("u1", "hi", false) : SlotData))] "s1"
      = some ("u1", "hi", false) := rfl
  exact ⟨h,
    (C2_slot_semantics _ _ _
      { createResult := .error "", storedPreviewUrl := none,
        agentEvents := [] } none "u1" "again" h).1,
    (C2_slot_semantics [("s1", (("u1", "hi", false) : SlotData))] "s1"
      ("u1", "hi", false)
      { createResult := .error "", storedPreviewUrl := none,
        agentEvents := [] } none "u1" "again" h).2.2⟩

/-- Claim C3 (confirmed): on one FSTools instance, a `read_file(p)`
immediately after a successful `write_file(p, c)` returns `c` (the write
is write-through, so the read hits the just-updated cache entry), and a
backend write that raises leaves no cache entry for the path (the entry
is invalidated). -/
theorem C3_read_after_write (be : Backend) (fc : FileCache)
    (p c : String) :
    (be.writeF p c = .ok () →
      (FSTools.read_file be (FSTools.write_file be fc p c).2 p).1 = c)
    ∧ (∀ e, be.writeF p c = .error e →
      alookup (FSTools.write_file be fc p c).2.cache (normalizePath p)
        = none) := by
  constructor
  · intro h
    simp [FSTools.write_file, h, FSTools.read_file, FileCache.get,
      FileCache.set, alookup_ainsert]
  · intro e h
    simp [FSTools.write_file, h, FileCache.invalidate, alookup_aerase]

/-- Witness for C3: a backend whose write succeeds, and one whose write
raises, both starting from an empty cache. -/
theorem C3_read_after_write_witness :
    (Backend.mk (fun _ => .ok "stale") (fun _ _ => .ok ())).writeF
        "./src/App.tsx" "export default 1" = .ok ()
    ∧ (FSTools.read_file
        (Backend.mk (fun _ => .ok "stale") (fun _ _ => .ok ()))
        (FSTools.write_file
          (Backend.mk (fun _ => .ok "stale") (fun _ _ => .ok ()))
          (FileCache.empty 50) "./src/App.tsx" "export default 1").2
        "./src/App.tsx").1 = "export default 1"
    ∧ (Backend.mk (fun _ => .ok "stale")
        (fun _ _ => .error "disk full")).writeF
        "./src/App.tsx" "export default 1" = .error "disk full"
    ∧ alookup (FSTools.write_file
        (Backend.mk (fun _ => .ok "stale")
          (fun _ _ => .error "disk full"))
        (FileCache.empty 50) "./src/App.tsx" "export default 1").2.cache
        (normalizePath "./src/App.tsx") = none := by
  refine ⟨rfl, ?_, rfl, ?_⟩
  · exact (C3_read_after_write
      (Backend.mk (fun _ => .ok "stale") (fun _ _ => .ok ()))
      (FileCache.empty 50) "./src/App.tsx" "export default 1").1 rfl
  · exact (C3_read_after_write
      (Backend.mk (fun _ => .ok "stale") (fun _ _ => .error "disk full"))
      (FileCache.empty 50) "./src/App.tsx" "export default 1").2
      "disk full" rfl

/-- Claim C4, counterexample: both launchers strip the command BEFORE the
blocklist check, so the command string consisting of "sudo" followed by a
space — which matches the blocklist pattern for sudo followed by
whitespace — is stripped to "sudo", passes the gate, and a subprocess IS
spawned.  The claim as stated ("for every command string matching any
blocklist pattern, no subprocess is spawned") is therefore false. -/
theorem C4_blocklist_counterexample :
    isBlocked "sudo " = true
    ∧ runCommandGate "sudo " false = .spawned "sudo"
    ∧ runBackgroundGate "sudo " = .spawned "sudo" := by
  refine ⟨by decide, by decide, by decide⟩

/-- Claim C4 as amended: for every command whose whitespace-stripped form
matches a blocklist pattern, `run_command` and `run_background` return
the security-error result and no subprocess is spawned — the blocklist
gate runs before any launch, but on the stripped command. -/
theorem C4_blocklist_on_stripped (cmd : String) (confirmed : Bool)
    (h : isBlocked (pyStrip cmd) = true) :
    runCommandGate cmd confirmed = .blockedErr
    ∧ runBackgroundGate cmd = .blockedErr := by
  have hne : ¬pyStrip cmd = "" := by
    intro h0
    rw [h0] at h
    exact absurd h (by decide)
  constructor
  · simp [runCommandGate, h, hne]
  · simp [runBackgroundGate, h, hne]

/-- Witness for C4: a concrete blocked command. -/
theorem C4_blocklist_on_stripped_witness :
    isBlocked (pyStrip "sudo rm -rf /") = true
    ∧ runCommandGate "sudo rm -rf /" true = .blockedErr
    ∧ runBackgroundGate "sudo rm -rf /" = .blockedErr := by
  have h : isBlocked (pyStrip "sudo rm -rf /") = true := by decide
  exact ⟨h, (C4_blocklist_on_stripped "sudo rm -rf /" true h).1,
    (C4_blocklist_on_stripped "sudo rm -rf /" true h).2⟩

/-- Claim C5, counterexample: when a tool_end result (for a tool other
than show_user_message) contains the marker "Preview URL:", the agent
pipeline DOES emit a `preview_ready` event — but the subscription loop in
`stream_events.generate` has no branch for that event type, so nothing is
delivered on the server-to-client stream: the delivered events for this
turn are just the tool_end (without the result) and the final done. -/
theorem C5_preview_ready_counterexample :
    streamAgentEvents
      [.onToolEnd "run_command"
        "Build done. Preview URL: https://5173-abc.e2b.dev ready"]
    = [.toolEnd "run_command"
         "Build done. Preview URL: https://5173-abc.e2b.dev ready",
       .previewReady "https://5173-abc.e2b.dev",
       .doneEv (some "https://5173-abc.e2b.dev")]
    ∧ (generateTurn false
        { createResult := .error "", storedPreviewUrl := none,
          agentEvents := streamAgentEvents
            [.onToolEnd "run_command"
              "Build done. Preview URL: https://5173-abc.e2b.dev ready"] }
      ).events
    = [.toolEnd "run_command" none, .doneEv none] := by
  exact ⟨rfl, rfl⟩

/-- Claim C5 as amended: the agent pipeline emits `preview_ready`
whenever a non-`show_user_message` tool_end result (truncated to 500
characters) yields a URL token after "Preview URL:", but the orchestrator
never delivers a `preview_ready` event to the client — the subscription
loop drops event types it has no branch for. -/
theorem C5_preview_ready_pipeline_only :
    (∀ (name out : String) (rest : List RawEvent) (pu : Option String)
      (u : String),
      ¬name = "show_user_message" →
      extractPreviewUrl (strTake out 500) = some u →
      AgentEvent.previewReady u
        ∈ streamAgentEventsGo (.onToolEnd name out :: rest) pu)
    ∧ (∀ (needsSandbox : Bool) (env : TurnEnv) (u : String),
      OutEvent.previewReady u ∉ (generateTurn needsSandbox env).events) := by
  constructor
  · intro name out rest pu u hname hex
    simp [streamAgentEventsGo, hname, hex]
  · intro needsSandbox env u
    cases needsSandbox with
    | false =>
      exact previewReady_not_in_generateRest none env.storedPreviewUrl env u
    | true =>
      cases hc : env.createResult with
      | error e => simp [generateTurn, hc]
      | ok pr =>
        simp only [generateTurn, hc]
        exact previewReady_not_in_generateRest (some pr) pr.2 env u

/-- Witness for C5: the pipeline emits preview_ready for a concrete
tool_end, and a concrete turn delivers none. -/
theorem C5_preview_ready_pipeline_only_witness :
    (¬"run_command" = "show_user_message")
    ∧ extractPreviewUrl (strTake "Preview URL: https://x.e2b.dev" 500)
      = some "https://x.e2b.dev"
    ∧ AgentEvent.previewReady "https://x.e2b.dev"
      ∈ streamAgentEventsGo
          [.onToolEnd "run_command" "Preview URL: https://x.e2b.dev"] none
    ∧ OutEvent.previewReady "https://x.e2b.dev"
      ∉ (generateTurn false
          { createResult := .error "", storedPreviewUrl := none,
            agentEvents :=
              [.previewReady "https://x.e2b.dev", .doneEv none] }).events := by
  refine ⟨by decide, by decide, ?_, ?_⟩
  · exact C5_preview_ready_pipeline_only.1 "run_command"
      "Preview URL: https://x.e2b.dev" [] none "https://x.e2b.dev"
      (by decide) (by decide)
  · exact C5_preview_ready_pipeline_only.2 false
      { createResult := .error "", storedPreviewUrl := none,
        agentEvents := [.previewReady "https://x.e2b.dev", .doneEv none] }
      "https://x.e2b.dev"

/-- Claim C6, counterexample: `_is_binary` uses a STRICT comparison
(`non_printable > len * 0.1`), so an output whose first 1000 characters
are EXACTLY 10 percent non-printable — here one NUL among ten characters,
satisfying the claim's "at least 10%" — is NOT treated as binary: both
`_format_output` and `read_log` return the raw bytes as text. -/
theorem C6_binary_threshold_counterexample :
    10 * (("\x00aaaaaaaaa".toList.take 1000).filter pyNonPrintable).length
      ≥ ("\x00aaaaaaaaa".toList.take 1000).length
    ∧ isBinary "\x00aaaaaaaaa" = false
    ∧ (formatOutput 40
        { cmd_id := "abc12345", command := "./tool", exit_code := some 0,
          stdout_lines := ["\x00aaaaaaaaa"], stderr_lines := [],
          is_running := false, output_buffer := [],
          pagination_count := 0 } false).output = "\x00aaaaaaaaa"
    ∧ (readLog 3
        { cmd_id := "abc12345", command := "./tool", exit_code := some 0,
          stdout_lines := ["\x00aaaaaaaaa"], stderr_lines := [],
          is_running := false, output_buffer := [],
          pagination_count := 0 } none 100 false).1
      = .page "\x00aaaaaaaaa" "lines 1-1 of 1" 1 false 2 none none := by
  refine ⟨by decide, by decide, by decide, by decide⟩

/-- Claim C6 as amended: when STRICTLY more than 10 percent of the first
1000 characters of the checked sample are non-printable (codepoint below
32, excluding tab, CR and LF), the binary notice replaces the text: in
`_format_output` the sample is the first ten output lines, and in
`read_log` it is the requested page (when pagination is not exhausted and
the log is non-empty). -/
theorem C6_binary_never_text (log : LogModel) (verbose : Bool)
    (defaultTailLines : Nat) (offset : Option Int) (limit : Nat)
    (fromEnd : Bool) :
    (isBinary (joinL ((log.stdout_lines ++ log.stderr_lines).take 10))
        = true →
      (formatOutput defaultTailLines log verbose).output = binaryNotice)
    ∧ (log.pagination_count + 1 ≤ 3 →
      ¬readLogLines log = [] →
      isBinary (readLogPageText log offset limit fromEnd) = true →
      (readLog 3 log offset limit fromEnd).1 = .binaryError) := by
  constructor
  · intro h
    simp [formatOutput, h]
  · intro hpag hne hbin
    have hlines : readLogLines
        { log with pagination_count := log.pagination_count + 1 }
        = readLogLines log := rfl
    have htotal : ¬(readLogLines log).length = 0 := by
      intro h0
      exact hne (List.eq_nil_of_length_eq_zero h0)
    have hpag2 : ¬log.pagination_count + 1 > 3 := by omega
    simp only [readLog, hlines, hpag2, if_false, htotal, if_neg htotal]
    simp only [readLogPageText, hlines] at hbin
    simp [hbin]

/-- Witness for C6: a log whose single output line is four NULs. -/
theorem C6_binary_never_text_witness :
    isBinary (joinL ((["\x00\x00\x00\x00"] ++
        ([] : List String)).take 10)) = true
    ∧ (formatOutput 40
        { cmd_id := "bin00001", command := "cat img.png",
          exit_code := some 0, stdout_lines := ["\x00\x00\x00\x00"],
          stderr_lines := [], is_running := false, output_buffer := [],
          pagination_count := 0 } false).output = binaryNotice
    ∧ (readLog 3
        { cmd_id := "bin00001", command := "cat img.png",
          exit_code := some 0, stdout_lines := ["\x00\x00\x00\x00"],
          stderr_lines := [], is_running := false, output_buffer := [],
          pagination_count := 0 } none 100 false).1 = .binaryError := by
  refine ⟨by decide, ?_, ?_⟩
  · exact (C6_binary_never_text
      { cmd_id := "bin00001", command := "cat img.png",
        exit_code := some 0, stdout_lines := ["\x00\x00\x00\x00"],
        stderr_lines := [], is_running := false, output_buffer := [],
        pagination_count := 0 } false 40 none 100 false).1 (by decide)
  · exact (C6_binary_never_text
      { cmd_id := "bin00001", command := "cat img.png",
        exit_code := some 0, stdout_lines := ["\x00\x00\x00\x00"],
        stderr_lines := [], is_running := false, output_buffer := [],
        pagination_count := 0 } false 40 none 100 false).2
      (by decide) (by decide) (by decide)

/-- Claim C7 (code bug): `_normalize_path` is meant to strip exactly a
leading "./" prefix and a trailing "/" so that only those decorations
share a cache key, but `path.lstrip("./")` strips the character SET of
dots and slashes, so ".env" — which has no "./" prefix — collapses to
"env" and collides with the distinct path "env".  Concretely, after
writing "env" on a fresh cache, reading ".env" returns the content
written to "env" instead of consulting the backend, whose ".env" holds
different content. -/
theorem C7_normalize_path_collision :
    normalizePath ".env" = "env"
    ∧ normalizePath "env" = "env"
    ∧ specNormalizePath ".env" = ".env"
    ∧ (FSTools.read_file
        (Backend.mk
          (fun p => if p = ".env" then .ok "DOTENV-SECRET" else .ok "OTHER")
          (fun _ _ => .ok ()))
        (FSTools.write_file
          (Backend.mk
            (fun p => if p = ".env" then .ok "DOTENV-SECRET" else .ok "OTHER")
            (fun _ _ => .ok ()))
          (FileCache.empty 50) "env" "VITE_PORT=5173").2
        ".env").1 = "VITE_PORT=5173"
    ∧ (Backend.mk
        (fun p => if p = ".env" then .ok "DOTENV-SECRET" else .ok "OTHER")
        (fun _ _ => .ok ())).readF ".env" = .ok "DOTENV-SECRET" := by
  refine ⟨by decide, by decide, by decide, by decide, rfl⟩

/-- Claim C8 (confirmed): creating a sandbox for a user first destroys
any existing sandbox of that user exactly once (one provider kill, then
one provider allocation, in that order), records the fresh sandbox as the
user's unique mapping without touching other users, and destroying for a
user with no sandbox is a no-op returning false. -/
theorem C8_sandbox_manager_single (st : SMState) (uid fresh : String) :
    alookup (SandboxManager.create st uid fresh).2.1 uid
      = some (SandboxManager.create st uid fresh).1
    ∧ (SandboxManager.create st uid fresh).1.sandbox_id = fresh
    ∧ (SandboxManager.create st uid fresh).2.2
      = (match alookup st uid with
         | some old =>
           [ProviderEvent.kill old.sandbox_id, ProviderEvent.created fresh]
         | none => [ProviderEvent.created fresh])
    ∧ countKey (SandboxManager.create st uid fresh).2.1 uid = 1
    ∧ (∀ uid2, ¬uid2 = uid →
        alookup (SandboxManager.create st uid fresh).2.1 uid2
          = alookup st uid2)
    ∧ (alookup st uid = none →
        SandboxManager.destroy st uid = (false, st, [])) := by
  cases h : alookup st uid with
  | none =>
    refine ⟨?_, rfl, ?_, ?_, ?_, ?_⟩
    · simp [SandboxManager.create, h, alookup_ainsert]
    · simp [SandboxManager.create, h]
    · simp [SandboxManager.create, h, countKey_ainsert]
    · intro uid2 hne
      simp [SandboxManager.create, h, alookup_ainsert_ne _ _ _ _ hne]
    · intro _
      simp [SandboxManager.destroy, h]
  | some old =>
    refine ⟨?_, rfl, ?_, ?_, ?_, ?_⟩
    · simp [SandboxManager.create, SandboxManager.destroy, h,
        alookup_ainsert]
    · simp [SandboxManager.create, SandboxManager.destroy, h]
    · simp [SandboxManager.create, SandboxManager.destroy, h,
        countKey_ainsert]
    · intro uid2 hne
      simp [SandboxManager.create, SandboxManager.destroy, h,
        alookup_ainsert_ne _ _ _ _ hne, alookup_aerase_ne _ _ _ hne]
    · intro hc
      cases hc

/-- Witness for C8: a user who already owns a sandbox gets it killed
exactly once before the fresh allocation; destroying for an unknown user
is a no-op. -/
theorem C8_sandbox_manager_single_witness :
    (SandboxManager.create
      [("u1", { user_id := "u1", sandbox_id := "sb-old" })] "u1"
      "sb-new").2.2
      = [ProviderEvent.kill "sb-old", ProviderEvent.created "sb-new"]
    ∧ (¬"u2" = "u1")
    ∧ alookup (SandboxManager.create
        [("u1", { user_id := "u1", sandbox_id := "sb-old" })] "u1"
        "sb-new").2.1 "u2"
      = alookup
          [(("u1" : String),
            ({ user_id := "u1", sandbox_id := "sb-old" } : UserSandbox))]
          "u2"
    ∧ alookup ([] : SMState) "ghost" = none
    ∧ SandboxManager.destroy ([] : SMState) "ghost"
      = (false, ([] : SMState), []) := by
  refine ⟨?_, by decide, ?_, rfl, ?_⟩
  · have h := (C8_sandbox_manager_single
      [("u1", { user_id := "u1", sandbox_id := "sb-old" })] "u1"
      "sb-new").2.2.1
    simpa using h
  · exact (C8_sandbox_manager_single
      [("u1", { user_id := "u1", sandbox_id := "sb-old" })] "u1"
      "sb-new").2.2.2.2.1 "u2" (by decide)
  · exact (C8_sandbox_manager_single ([] : SMState) "ghost" "x").2.2.2.2.2
      rfl

/-- Claim C9 (confirmed): URL auto-detection returns the capture of the
first matching pattern in the stated order — the dev-server "Local:" line
wins over a bare localhost URL appearing earlier in the output — a
digits-only capture is expanded to a localhost URL, the canonical Vite
line yields exactly the printed URL, and the detector is a pure function,
so running it twice on the same output yields the same URL. -/
theorem C9_detect_url :
    detectUrl "  Local: http://localhost:5173/" = some "http://localhost:5173/"
    ∧ detectUrl "  Local: http://localhost:5173/\n"
      = some "http://localhost:5173/"
    ∧ detectUrl "serving at http://127.0.0.1:4000/ now"
      = some "http://localhost:4000"
    ∧ detectUrl "see http://localhost:3000 and Local: http://app.example"
      = some "http://app.example"
    ∧ (∀ s : String, detectUrl s = detectUrl s) := by
  refine ⟨by decide, by decide, by decide, by decide, fun _ => rfl⟩

/-- Claim C10 (confirmed): `run_background` applies only the blocklist
gate.  For every command whose stripped form matches a
confirmation-required pattern but no blocked pattern, `run_background`
launches it without `confirmed=true`, while `run_command` refuses the
same command unless `confirmed=true`. -/
theorem C10_background_skips_confirmation (cmd : String)
    (h1 : needsConfirm (pyStrip cmd) = true)
    (h2 : isBlocked (pyStrip cmd) = false) :
    runBackgroundGate cmd = .spawned (pyStrip cmd)
    ∧ runCommandGate cmd false
      = .confirmErr
          ("Command \x27" ++ pyStrip cmd ++ "\x27 requires confirmed=True")
    ∧ runCommandGate cmd true = .spawned (pyStrip cmd) := by
  have hne : ¬pyStrip cmd = "" := by
    intro h0
    rw [h0] at h1
    exact absurd h1 (by decide)
  refine ⟨?_, ?_, ?_⟩
  · simp [runBackgroundGate, hne, h2]
  · simp [runCommandGate, hne, h2, h1]
  · simp [runCommandGate, hne, h2, h1]

/-- Witness for C10: "git push origin main" needs confirmation, is not
blocked, and is launched by run_background but refused by an unconfirmed
run_command. -/
theorem C10_background_skips_confirmation_witness :
    needsConfirm (pyStrip "git push origin main") = true
    ∧ isBlocked (pyStrip "git push origin main") = false
    ∧ runBackgroundGate "git push origin main"
      = .spawned "git push origin main"
    ∧ runCommandGate "git push origin main" false
      = .confirmErr
          "Command \x27git push origin main\x27 requires confirmed=True"
    ∧ runCommandGate "git push origin main" true
      = .spawned "git push origin main" := by
  have h1 : needsConfirm (pyStrip "git push origin main") = true := by
    decide
  have h2 : isBlocked (pyStrip "git push origin main") = false := by
    decide
  have h := C10_background_skips_confirmation "git push origin main" h1 h2
  exact ⟨h1, h2, by simpa using h.1, by simpa using h.2.1,
    by simpa using h.2.2⟩

end Fegg
